import Mathlib

/-!
Shallow embedding of the order/export core of the swibicollection backend
(src/routes/auth.js and src/unnamed/part_001), with proofs of the claimed
properties.  Times are modelled as natural numbers (milliseconds for the
token registry, seconds for order dates), SQL DECIMAL prices as rationals,
and the datastore as explicit record state.  Statement failures inside the
order-creation transaction are modelled by an oracle assigning success or
failure to each executed statement, in execution order.
-/

namespace Swibi

/-! ## Download token registry (src/routes/auth.js lines 95-131, 246-294) -/

/-- The value stored in the `downloadTokens` map: a filename and an absolute
expiry instant in milliseconds. -/
structure FileInfo where
  filename : String
  expiresAt : Nat
deriving DecidableEq, Repr

/-- The in-memory `downloadTokens` registry: an association list standing for
the JS `Map` (keys are unique in a `Map`; insertion keeps them unique here). -/
abbrev TokenRegistry := List (String × FileInfo)

/-- Lookup of `downloadTokens.get(token)`. -/
def registryGet (reg : TokenRegistry) (t : String) : Option FileInfo :=
  (reg.find? (fun p => p.1 == t)).map Prod.snd

/-- Deletion of `downloadTokens.delete(token)`. -/
def registryDelete (reg : TokenRegistry) (t : String) : TokenRegistry :=
  reg.filter (fun p => p.1 != t)

/-- Token time-to-live: `5 * 60 * 1000` milliseconds (auth.js line 104). -/
def tokenTTLms : Nat := 5 * 60 * 1000

/-- The body of `createDownloadToken` (auth.js lines 99-112): register the
token with expiry `now + 5 minutes`.  The random token itself is a
parameter.  `Map.set` overwrites any entry with the same key. -/
def createDownloadToken (now : Nat) (token filename : String)
    (reg : TokenRegistry) : TokenRegistry :=
  (token, { filename := filename, expiresAt := now + tokenTTLms }) ::
    registryDelete reg token

/-- The body of `verifyDownloadToken` (auth.js lines 115-131): a missing
token yields `null`; an expired token is deleted and yields `null`; a live
token is deleted and returned. -/
def verifyDownloadToken (now : Nat) (token : String) (reg : TokenRegistry) :
    Option FileInfo × TokenRegistry :=
  match registryGet reg token with
  | none => (none, reg)
  | some fileInfo =>
    if fileInfo.expiresAt < now then
      (none, registryDelete reg token)
    else
      (some fileInfo, registryDelete reg token)

/-- Outcome of `GET /api/orders/download/:token`. -/
inductive DownloadResult where
  | unauthorized
  | fileNotFound
  | streamed (filename : String)
deriving DecidableEq, Repr

/-- The handler of `GET /api/orders/download/:token` (auth.js lines
249-294): verify (and thereby consume) the token, then check the file and
stream it.  `fileOnDisk` stands for `fs.existsSync`. -/
def downloadHandler (now : Nat) (token : String) (reg : TokenRegistry)
    (fileOnDisk : String → Bool) : DownloadResult × TokenRegistry :=
  match verifyDownloadToken now token reg with
  | (none, reg') => (.unauthorized, reg')
  | (some fileInfo, reg') =>
    if fileOnDisk fileInfo.filename then
      (.streamed fileInfo.filename, reg')
    else
      (.fileNotFound, reg')

lemma registryGet_registryDelete (reg : TokenRegistry) (t : String) :
    registryGet (registryDelete reg t) t = none := by
  induction reg with
  | nil => rfl
  | cons p rest ih =>
    by_cases h : p.1 = t <;>
      simp_all [registryDelete, registryGet, List.filter_cons, List.find?]

/-! ## Data model for orders, items and stock

Rows match the columns that the handlers in src/routes/auth.js read and
write.  `stock` is a nullable SQL integer (`Option Int`): a `NULL` stock
never satisfies the SQL guard `stock >= ?`. -/

/-- A row of the `orders` table, with the columns the handlers touch. -/
structure OrderRow where
  id : Nat
  name : String
  phone : String
  address : String
  notes : Option String
  status : String
  order_source : String
  order_date : Nat
  completed_date : Option Nat
deriving DecidableEq, Repr

/-- A row of the `order_items` table. -/
structure OrderItemRow where
  order_id : Nat
  product_id : Nat
  quantity : Nat
  price : ℚ
  color_id : Option Nat
deriving DecidableEq, Repr

/-- A row of the `products` table (id and nullable stock). -/
structure ProductRow where
  id : Nat
  stock : Option Int
deriving DecidableEq, Repr

/-- A row of the `product_colors` table (id, owning product, nullable stock). -/
structure ColorRow where
  id : Nat
  product_id : Nat
  stock : Option Int
deriving DecidableEq, Repr

/-- The relational state the order engine reads and writes.  `nextOrderId`
models the AUTO_INCREMENT counter behind `orderResult.insertId`. -/
structure Db where
  orders : List OrderRow
  orderItems : List OrderItemRow
  products : List ProductRow
  colors : List ColorRow
  nextOrderId : Nat
deriving DecidableEq, Repr

/-- One item of an order-creation request body:
`{productId, colorId?, quantity, price}`. -/
structure OrderItemReq where
  productId : Nat
  colorId : Option Nat
  quantity : Nat
  price : Option ℚ
deriving DecidableEq, Repr

/-- The body of `POST /api/orders`. -/
structure CreateOrderReq where
  name : Option String
  phone : Option String
  address : Option String
  notes : Option String
  order_source : Option String
  items : List OrderItemReq
deriving DecidableEq, Repr

/-- The body of `POST /api/orders/whatsapp`. -/
structure WhatsappOrderReq where
  name : Option String
  phone : Option String
  address : Option String
  notes : Option String
  items : List OrderItemReq
deriving DecidableEq, Repr

/-- JS truthiness of an optional string field: absent, `null` and `''` are
falsy. -/
def jsTruthyS : Option String → Bool
  | none => false
  | some s => s != ""

/-- JS truthiness of an optional numeric field: absent, `null` and `0` are
falsy. -/
def jsTruthyN : Option Nat → Bool
  | none => false
  | some n => n != 0

/-- The JS idiom `value || fallback` on an optional string. -/
def jsOr (v : Option String) (fallback : String) : String :=
  if jsTruthyS v then v.getD "" else fallback

/-- SQL guard `stock >= q` on a nullable stock column: `NULL` compares
unknown, so the row is not matched. -/
def stockGE (st : Option Int) (q : Nat) : Bool :=
  match st with
  | some s => (q : Int) ≤ s
  | none => false

/-- The statement `UPDATE products SET stock = stock - ? WHERE id = ? AND
stock >= ?` (auth.js lines 1553-1556). -/
def decProductStock (pid : Nat) (q : Nat) (ps : List ProductRow) :
    List ProductRow :=
  ps.map fun p =>
    if p.id == pid && stockGE p.stock q then
      { p with stock := p.stock.map (fun s => s - (q : Int)) }
    else p

/-- The statement `UPDATE product_colors SET stock = stock - ? WHERE id = ?
AND product_id = ? AND stock >= ?` (auth.js lines 1547-1549). -/
def decColorStock (cid pid : Nat) (q : Nat) (cs : List ColorRow) :
    List ColorRow :=
  cs.map fun c =>
    if c.id == cid && c.product_id == pid && stockGE c.stock q then
      { c with stock := c.stock.map (fun s => s - (q : Int)) }
    else c

/-- The conditional stock decrement for one item of a non-WhatsApp order
(auth.js lines 1544-1558): a truthy `colorId` targets that color's stock,
otherwise the product's stock. -/
def stockStep (it : OrderItemReq) (db : Db) : Db :=
  if jsTruthyN it.colorId then
    { db with colors := decColorStock (it.colorId.getD 0) it.productId it.quantity db.colors }
  else
    { db with products := decProductStock it.productId it.quantity db.products }

/-- The `order_items` row inserted for one request item (auth.js lines
1527-1540): price is `parseFloat(item.price) || 0`, the stored color id is
`item.colorId || null`. -/
def mkItemRow (oid : Nat) (it : OrderItemReq) : OrderItemRow :=
  { order_id := oid
    product_id := it.productId
    quantity := it.quantity
    price := it.price.getD 0
    color_id := if jsTruthyN it.colorId then it.colorId else none }

/-- One iteration of the item loop of `POST /api/orders`: insert the
`order_items` row, then (for non-WhatsApp orders only) run the conditional
stock decrement. -/
def itemStep (isWA : Bool) (oid : Nat) (it : OrderItemReq) (db : Db) : Db :=
  let db1 := { db with orderItems := db.orderItems ++ [mkItemRow oid it] }
  if isWA then db1 else stockStep it db1

/-- HTTP-level outcome of the order handlers. -/
inductive Resp where
  | badRequest (msg : String)
  | notFound
  | serverError
  | created (orderId : Nat)
  | ok
deriving DecidableEq, Repr

/-- A failure oracle: `oracle k = true` means the `k`-th datastore (or
notification) statement executed by the handler throws. -/
abbrev FailOracle := Nat → Bool

/-- The all-statements-succeed oracle. -/
def noFail : FailOracle := fun _ => false

/-- The item loop of the order-creation transaction with its statement
indices: each iteration issues the `order_items` INSERT and, for
non-WhatsApp orders, the stock UPDATE.  Returns `none` when a statement
throws (the handler then rolls back), otherwise the transaction-local state
and the next statement index. -/
def insertItemsLoop (oracle : FailOracle) (isWA : Bool) (oid : Nat) :
    List OrderItemReq → Nat → Db → Option (Db × Nat)
  | [], k, db => some (db, k)
  | it :: rest, k, db =>
    if oracle k then none
    else if isWA then
      insertItemsLoop oracle isWA oid rest (k + 1) (itemStep true oid it db)
    else if oracle (k + 1) then none
    else
      insertItemsLoop oracle isWA oid rest (k + 2) (itemStep false oid it db)

/-- The `orders` row inserted by `POST /api/orders` (auth.js lines
1513-1522): WhatsApp-sourced orders get fixed placeholder customer fields
regardless of the request; `status` takes the schema default `pending`. -/
def mkOrderRow (oid now : Nat) (isWA : Bool) (req : CreateOrderReq) : OrderRow :=
  { id := oid
    name := if isWA then "WhatsApp Order" else req.name.getD ""
    phone := if isWA then "WhatsApp" else req.phone.getD ""
    address := if isWA then "To be provided via WhatsApp" else req.address.getD ""
    notes := if isWA then some "Customer will provide details via WhatsApp"
             else if jsTruthyS req.notes then req.notes else none
    status := "pending"
    order_source := if isWA then "whatsapp" else "website"
    order_date := now
    completed_date := none }

/-- The handler of `POST /api/orders` (auth.js lines 1491-1604).
Statement numbering: 0 = `orders` INSERT; then the item loop; then COMMIT;
then the post-commit `SELECT * FROM orders WHERE id = ?`; then (when a
notification channel is registered) the `notifyAdmins` broadcast.  A
failure before COMMIT rolls the transaction back; a failure after COMMIT
leaves the committed state but reaches the handler's catch, which responds
500. -/
def createOrder (oracle : FailOracle) (channel : Bool) (now : Nat)
    (req : CreateOrderReq) (db : Db) : Resp × Db :=
  if req.items.isEmpty then
    (.badRequest "Missing required items", db)
  else
    let isWA := req.order_source == some "whatsapp"
    if !isWA && (!jsTruthyS req.name || !jsTruthyS req.phone || !jsTruthyS req.address) then
      (.badRequest "Missing required customer information", db)
    else if oracle 0 then
      (.serverError, db)
    else
      let oid := db.nextOrderId
      let db1 := { db with
        orders := db.orders ++ [mkOrderRow oid now isWA req]
        nextOrderId := oid + 1 }
      match insertItemsLoop oracle isWA oid req.items 1 db1 with
      | none => (.serverError, db)
      | some (db2, k) =>
        if oracle k then (.serverError, db)
        else if oracle (k + 1) then (.serverError, db2)
        else if channel && oracle (k + 2) then (.serverError, db2)
        else (.created oid, db2)

/-- The `orders` row inserted by `POST /api/orders/whatsapp` (auth.js lines
1677-1687): supplied customer fields win, the placeholders are only the
`||` fallbacks; status `pending` and source `whatsapp` are explicit. -/
def mkWhatsappOrderRow (oid now : Nat) (req : WhatsappOrderReq) : OrderRow :=
  { id := oid
    name := jsOr req.name "WhatsApp Order"
    phone := jsOr req.phone "WhatsApp"
    address := jsOr req.address "To be provided via WhatsApp"
    notes := some (jsOr req.notes "Customer will provide details via WhatsApp")
    status := "pending"
    order_source := "whatsapp"
    order_date := now
    completed_date := none }

/-- The handler of `POST /api/orders/whatsapp` (auth.js lines 1663-1749):
same transaction shape as `createOrder` but with no stock updates ever. -/
def createWhatsappOrder (oracle : FailOracle) (channel : Bool) (now : Nat)
    (req : WhatsappOrderReq) (db : Db) : Resp × Db :=
  if req.items.isEmpty then
    (.badRequest "Missing required items", db)
  else if oracle 0 then
    (.serverError, db)
  else
    let oid := db.nextOrderId
    let db1 := { db with
      orders := db.orders ++ [mkWhatsappOrderRow oid now req]
      nextOrderId := oid + 1 }
    match insertItemsLoop oracle true oid req.items 1 db1 with
    | none => (.serverError, db)
    | some (db2, k) =>
      if oracle k then (.serverError, db)
      else if oracle (k + 1) then (.serverError, db2)
      else if channel && oracle (k + 2) then (.serverError, db2)
      else (.created oid, db2)

/-- The handler of `PUT /api/orders/:id/status` (auth.js lines 1609-1642):
validate the status, look the order up, compute `completed_date` (set to
now only when the new status is `delivered` and the stored value is null),
and write status and `completed_date` back. -/
def updateOrderStatus (now : Nat) (oid : Nat) (status : String) (db : Db) :
    Resp × Db :=
  if !(status == "pending" || status == "confirmed" ||
       status == "delivered" || status == "cancelled") then
    (.badRequest "Invalid status", db)
  else
    match db.orders.find? (fun r => r.id == oid) with
    | none => (.notFound, db)
    | some o =>
      let completedDate :=
        if status == "delivered" && o.completed_date.isNone then some now
        else o.completed_date
      (.ok, { db with
        orders := db.orders.map fun r =>
          if r.id == oid then { r with status := status, completed_date := completedDate }
          else r })

/-! ## Export query building (src/routes/auth.js lines 136-199)

The WHERE clauses are appended exactly when the corresponding request field
is truthy (`orderId`, `startDate`, `endDate`) or truthy-and-not-`'all'`
(`status`); dates are widened to inclusive day boundaries; the result is
ordered by `order_date DESC`.  DATETIME strings are modelled as second
counts, a day `d` spanning `86400*d` through `86400*d + 86399`. -/

/-- The filter fields of `POST /api/orders/prepare-export` (and of the two
`GET /api/orders/export` handlers, which build the identical query). -/
structure ExportFilter where
  orderId : Option Nat
  status : Option String
  startDate : Option Nat
  endDate : Option Nat
deriving DecidableEq, Repr

/-- Second count of `'<startDate> 00:00:00'` for day `d`. -/
def dayStart (d : Nat) : Nat := 86400 * d

/-- Second count of `'<endDate> 23:59:59'` for day `d`. -/
def dayEnd (d : Nat) : Nat := 86400 * d + 86399

/-- The conjunction of the WHERE clauses the handler pushes
(auth.js lines 150-176), evaluated on one `orders` row. -/
def matchesFilter (f : ExportFilter) (o : OrderRow) : Bool :=
  (if jsTruthyN f.orderId then o.id == f.orderId.getD 0 else true) &&
  (if jsTruthyS f.status && f.status.getD "" != "all"
    then o.status == f.status.getD "" else true) &&
  (if f.startDate.isSome then dayStart (f.startDate.getD 0) ≤ o.order_date else true) &&
  (if f.endDate.isSome then o.order_date ≤ dayEnd (f.endDate.getD 0) else true)

/-- Newest-first comparison used by `ORDER BY order_date DESC`. -/
def newestFirst (a b : OrderRow) : Prop := b.order_date ≤ a.order_date

instance : DecidableRel newestFirst := fun a b =>
  inferInstanceAs (Decidable (b.order_date ≤ a.order_date))

instance : IsTotal OrderRow newestFirst :=
  ⟨fun a b => (le_total b.order_date a.order_date)⟩

instance : IsTrans OrderRow newestFirst :=
  ⟨fun _ _ _ h1 h2 => le_trans h2 h1⟩

/-- The `SELECT * FROM orders [WHERE ...] ORDER BY order_date DESC` the
export handlers execute: keep the rows matching every pushed clause,
ordered newest first. -/
def exportQuery (f : ExportFilter) (orders : List OrderRow) : List OrderRow :=
  List.insertionSort newestFirst (orders.filter (matchesFilter f))

/-! ## Renderers: status labels and grand totals
(src/routes/auth.js lines 720-869, 874-1172, 1176-1421) -/

/-- An order item as the three renderers see it after the item JOIN:
product display name, quantity and unit price. -/
structure ExportItem where
  product_name : String
  quantity : Nat
  price : ℚ
deriving DecidableEq, Repr

/-- An order as the three renderers see it. -/
structure ExportOrder where
  id : Nat
  name : Option String
  phone : Option String
  address : Option String
  order_date : Nat
  status : Option String
  items : List ExportItem
deriving DecidableEq, Repr

/-- The Excel `statusMap` object lookup (auth.js lines 798-803):
defined on exactly the four known keys. -/
def statusMapLookup (s : String) : Option String :=
  if s == "pending" then some "En attente"
  else if s == "confirmed" then some "Confirmée"
  else if s == "delivered" then some "Livrée"
  else if s == "cancelled" then some "Annulée"
  else none

/-- The Excel status cell `statusMap[order.status] || 'En attente'`
(auth.js line 818): any failed lookup (including a null status) falls back
to `'En attente'`. -/
def excelStatusLabel (s : Option String) : String :=
  (s.bind statusMapLookup).getD "En attente"

/-- The PDF key `order.status || 'pending'` (auth.js line 981): the
fallback fires only on a falsy status. -/
def pdfStatusKey (s : Option String) : String :=
  if jsTruthyS s then s.getD "" else "pending"

/-- The PDF `statusInfo` object lookup, `text` field (auth.js lines
910-915): defined on exactly the four known keys. -/
def statusInfoText (s : String) : Option String :=
  if s == "pending" then some "En attente"
  else if s == "confirmed" then some "Confirmée"
  else if s == "delivered" then some "Livrée"
  else if s == "cancelled" then some "Annulée"
  else none

/-- The PDF status badge text `statusInfo[status].text` (auth.js line 982):
`none` models the thrown `TypeError` when the lookup is undefined, which
the handler's catch turns into a 500 response with no rendered document. -/
def pdfStatusText (s : Option String) : Option String :=
  statusInfoText (pdfStatusKey s)

/-- The Word status `switch(order.status)` (auth.js lines 1299-1315):
initialised to `'En attente'`, overwritten only by the three explicit
cases. -/
def wordStatusText (s : Option String) : String :=
  match s with
  | some st =>
    if st == "confirmed" then "Confirmée"
    else if st == "delivered" then "Livrée"
    else if st == "cancelled" then "Annulée"
    else "En attente"
  | none => "En attente"

/-- Per-order grand total of the PDF export (auth.js lines 1066-1072):
`total += (parseFloat(item.price) || 0) * (parseInt(item.quantity) || 0)`. -/
def pdfOrderTotal (items : List ExportItem) : ℚ :=
  items.foldl (fun total it => total + it.price * (it.quantity : ℚ)) 0

/-- Per-order grand total of the Word export (auth.js lines 1356-1361):
the same accumulation, written in the Word renderer. -/
def wordOrderTotal (items : List ExportItem) : ℚ :=
  items.foldl (fun total it => total + it.price * (it.quantity : ℚ)) 0

/-- The visible content of one Excel data row (auth.js lines 806-820):
id, customer, phone, address, formatted date, status label, and the
comma-joined product list.  No price or total appears anywhere in the row.
`fmt` stands for the external date-fns `format` call. -/
structure ExcelRow where
  id : String
  customer : String
  phone : String
  address : String
  date : String
  status : String
  products : String
deriving DecidableEq, Repr

/-- The `products` cell: `order.items.map(item =>
product_name (xquantity)).join(', ')` (auth.js lines 808-810). -/
def excelProductsCell (items : List ExportItem) : String :=
  String.intercalate ", "
    (items.map fun it => it.product_name ++ " (x" ++ toString it.quantity ++ ")")

/-- The Excel data row added for one order (auth.js lines 812-820). -/
def excelRow (fmt : Nat → String) (o : ExportOrder) : ExcelRow :=
  { id := "#" ++ toString o.id
    customer := jsOr o.name "N/A"
    phone := jsOr o.phone "N/A"
    address := jsOr o.address "N/A"
    date := fmt o.order_date
    status := excelStatusLabel o.status
    products := excelProductsCell o.items }

/-! ## Helper lemmas about the transaction item loop -/

lemma stockStep_orders (it : OrderItemReq) (db : Db) :
    (stockStep it db).orders = db.orders := by
  unfold stockStep; split <;> rfl

lemma stockStep_orderItems (it : OrderItemReq) (db : Db) :
    (stockStep it db).orderItems = db.orderItems := by
  unfold stockStep; split <;> rfl

lemma stockStep_nextOrderId (it : OrderItemReq) (db : Db) :
    (stockStep it db).nextOrderId = db.nextOrderId := by
  unfold stockStep; split <;> rfl

lemma stockStep_products (it : OrderItemReq) (db : Db) :
    (stockStep it db).products =
      if jsTruthyN it.colorId then db.products
      else decProductStock it.productId it.quantity db.products := by
  unfold stockStep; split <;> simp_all

lemma stockStep_colors (it : OrderItemReq) (db : Db) :
    (stockStep it db).colors =
      if jsTruthyN it.colorId then
        decColorStock (it.colorId.getD 0) it.productId it.quantity db.colors
      else db.colors := by
  unfold stockStep; split <;> simp_all

lemma itemStep_orders (isWA : Bool) (oid : Nat) (it : OrderItemReq) (db : Db) :
    (itemStep isWA oid it db).orders = db.orders := by
  unfold itemStep; split <;> simp [stockStep_orders]

lemma itemStep_nextOrderId (isWA : Bool) (oid : Nat) (it : OrderItemReq) (db : Db) :
    (itemStep isWA oid it db).nextOrderId = db.nextOrderId := by
  unfold itemStep; split <;> simp [stockStep_nextOrderId]

lemma itemStep_orderItems (isWA : Bool) (oid : Nat) (it : OrderItemReq) (db : Db) :
    (itemStep isWA oid it db).orderItems = db.orderItems ++ [mkItemRow oid it] := by
  unfold itemStep; split <;> simp [stockStep_orderItems]

lemma itemStep_products (isWA : Bool) (oid : Nat) (it : OrderItemReq) (db : Db) :
    (itemStep isWA oid it db).products =
      if isWA then db.products
      else if jsTruthyN it.colorId then db.products
      else decProductStock it.productId it.quantity db.products := by
  unfold itemStep; split <;> simp_all [stockStep_products]

lemma itemStep_colors (isWA : Bool) (oid : Nat) (it : OrderItemReq) (db : Db) :
    (itemStep isWA oid it db).colors =
      if isWA then db.colors
      else if jsTruthyN it.colorId then
        decColorStock (it.colorId.getD 0) it.productId it.quantity db.colors
      else db.colors := by
  unfold itemStep; split <;> simp_all [stockStep_colors]

lemma foldl_itemStep_orders (isWA : Bool) (oid : Nat) :
    ∀ (items : List OrderItemReq) (db : Db),
      (items.foldl (fun d it => itemStep isWA oid it d) db).orders = db.orders := by
  intro items
  induction items with
  | nil => intro db; rfl
  | cons it rest ih => intro db; simp [List.foldl_cons, ih, itemStep_orders]

lemma foldl_itemStep_nextOrderId (isWA : Bool) (oid : Nat) :
    ∀ (items : List OrderItemReq) (db : Db),
      (items.foldl (fun d it => itemStep isWA oid it d) db).nextOrderId =
        db.nextOrderId := by
  intro items
  induction items with
  | nil => intro db; rfl
  | cons it rest ih => intro db; simp [List.foldl_cons, ih, itemStep_nextOrderId]

lemma foldl_itemStep_orderItems (isWA : Bool) (oid : Nat) :
    ∀ (items : List OrderItemReq) (db : Db),
      (items.foldl (fun d it => itemStep isWA oid it d) db).orderItems =
        db.orderItems ++ items.map (mkItemRow oid) := by
  intro items
  induction items with
  | nil => intro db; simp
  | cons it rest ih => intro db; simp [List.foldl_cons, ih, itemStep_orderItems]

lemma foldl_itemStep_products (isWA : Bool) (oid : Nat) :
    ∀ (items : List OrderItemReq) (db : Db),
      (items.foldl (fun d it => itemStep isWA oid it d) db).products =
        if isWA then db.products
        else items.foldl (fun ps it =>
          if jsTruthyN it.colorId then ps
          else decProductStock it.productId it.quantity ps) db.products := by
  intro items
  induction items with
  | nil => intro db; simp
  | cons it rest ih =>
    intro db
    cases isWA <;> simp_all [List.foldl_cons, itemStep_products]

lemma foldl_itemStep_colors (isWA : Bool) (oid : Nat) :
    ∀ (items : List OrderItemReq) (db : Db),
      (items.foldl (fun d it => itemStep isWA oid it d) db).colors =
        if isWA then db.colors
        else items.foldl (fun cs it =>
          if jsTruthyN it.colorId then
            decColorStock (it.colorId.getD 0) it.productId it.quantity cs
          else cs) db.colors := by
  intro items
  induction items with
  | nil => intro db; simp
  | cons it rest ih =>
    intro db
    cases isWA <;> simp_all [List.foldl_cons, itemStep_colors]

/-- A successful run of the item loop ends in the fold of the per-item
steps; a failed run returns `none`. -/
lemma insertItemsLoop_cases (oracle : FailOracle) (isWA : Bool) (oid : Nat) :
    ∀ (items : List OrderItemReq) (k : Nat) (db : Db),
      insertItemsLoop oracle isWA oid items k db = none ∨
      ∃ k', insertItemsLoop oracle isWA oid items k db =
        some (items.foldl (fun d it => itemStep isWA oid it d) db, k') := by
  intro items
  induction items with
  | nil => intro k db; exact Or.inr ⟨k, rfl⟩
  | cons it rest ih =>
    intro k db
    by_cases h0 : oracle k
    · left; simp [insertItemsLoop, h0]
    · cases isWA
      · by_cases h1 : oracle (k + 1)
        · left; simp [insertItemsLoop, h0, h1]
        · rcases ih (k + 2) (itemStep false oid it db) with h | ⟨k', h⟩
          · left; simp [insertItemsLoop, h0, h1, h]
          · right; exact ⟨k', by simp [insertItemsLoop, h0, h1, h]⟩
      · rcases ih (k + 1) (itemStep true oid it db) with h | ⟨k', h⟩
        · left; simp [insertItemsLoop, h0, h]
        · right; exact ⟨k', by simp [insertItemsLoop, h0, h]⟩

/-- With the all-success oracle the item loop always succeeds. -/
lemma insertItemsLoop_noFail (isWA : Bool) (oid : Nat) :
    ∀ (items : List OrderItemReq) (k : Nat) (db : Db),
      insertItemsLoop noFail isWA oid items k db =
        some (items.foldl (fun d it => itemStep isWA oid it d) db,
              k + (if isWA then items.length else 2 * items.length)) := by
  intro items
  induction items with
  | nil => intro k db; simp [insertItemsLoop]
  | cons it rest ih =>
    intro k db
    cases isWA <;> simp [insertItemsLoop, noFail, ih, List.foldl_cons] <;>
      all_goals omega

/-! ## Claim C1: stock decrement semantics -/

/-- C1: stock is decremented iff the order is not WhatsApp-sourced.  A
WhatsApp order (through either route, under any failure oracle) leaves
every product and color stock unchanged.  A valid non-WhatsApp order that
commits successfully applies exactly the per-item conditional decrements
(to the color's stock when a truthy colorId is given, else to the
product's) and still responds 201.  Each single decrement takes a prior
stock `S` to `S - q` when `q ≤ S` and leaves the row unchanged (with no
error) when `q > S`, when the id does not match, or when the stock is
null; rows of other products/colors are untouched. -/
theorem stock_decrement_semantics :
    (∀ (db : Db) (now : Nat) (channel : Bool) (req : CreateOrderReq)
        (oracle : FailOracle),
      req.order_source = some "whatsapp" →
        (createOrder oracle channel now req db).2.products = db.products ∧
        (createOrder oracle channel now req db).2.colors = db.colors) ∧
    (∀ (db : Db) (now : Nat) (channel : Bool) (req : WhatsappOrderReq)
        (oracle : FailOracle),
      (createWhatsappOrder oracle channel now req db).2.products = db.products ∧
      (createWhatsappOrder oracle channel now req db).2.colors = db.colors) ∧
    (∀ (db : Db) (now : Nat) (channel : Bool) (req : CreateOrderReq),
      req.order_source ≠ some "whatsapp" →
      jsTruthyS req.name = true → jsTruthyS req.phone = true →
      jsTruthyS req.address = true → req.items ≠ [] →
        (createOrder noFail channel now req db).1 = .created db.nextOrderId ∧
        (createOrder noFail channel now req db).2.products =
          req.items.foldl (fun ps it =>
            if jsTruthyN it.colorId then ps
            else decProductStock it.productId it.quantity ps) db.products ∧
        (createOrder noFail channel now req db).2.colors =
          req.items.foldl (fun cs it =>
            if jsTruthyN it.colorId then
              decColorStock (it.colorId.getD 0) it.productId it.quantity cs
            else cs) db.colors) ∧
    (∀ (pid q : Nat) (ps : List ProductRow) (i : Nat) (p : ProductRow),
      ps[i]? = some p →
        (∀ S : Int, p.id = pid → p.stock = some S →
          ((q : Int) ≤ S →
            (decProductStock pid q ps)[i]? = some { p with stock := some (S - q) }) ∧
          (S < (q : Int) → (decProductStock pid q ps)[i]? = some p)) ∧
        (p.id ≠ pid → (decProductStock pid q ps)[i]? = some p) ∧
        (p.stock = none → (decProductStock pid q ps)[i]? = some p)) ∧
    (∀ (cid pid q : Nat) (cs : List ColorRow) (i : Nat) (c : ColorRow),
      cs[i]? = some c →
        (∀ S : Int, c.id = cid → c.product_id = pid → c.stock = some S →
          ((q : Int) ≤ S →
            (decColorStock cid pid q cs)[i]? = some { c with stock := some (S - q) }) ∧
          (S < (q : Int) → (decColorStock cid pid q cs)[i]? = some c)) ∧
        (¬(c.id = cid ∧ c.product_id = pid) →
          (decColorStock cid pid q cs)[i]? = some c)) := by
  refine ⟨?wa, ?waRoute, ?web, ?prod, ?color⟩
  case wa =>
    intro db now channel req oracle hsrc
    unfold createOrder
    by_cases hempty : req.items.isEmpty
    · simp [hempty]
    · have hWA : (req.order_source == some "whatsapp") = true := by
        simp [hsrc]
      simp only [hempty, hWA, Bool.not_true, Bool.false_and, Bool.if_false_left]
      by_cases h0 : oracle 0
      · simp [h0]
      · simp only [h0, if_false, if_true, Bool.false_eq_true]
        rcases insertItemsLoop_cases oracle true db.nextOrderId req.items 1
          { db with orders := db.orders ++ [mkOrderRow db.nextOrderId now true req],
                    nextOrderId := db.nextOrderId + 1 } with h | ⟨k', h⟩
        · simp [h]
        · have hp := foldl_itemStep_products true db.nextOrderId req.items
            { db with orders := db.orders ++ [mkOrderRow db.nextOrderId now true req],
                      nextOrderId := db.nextOrderId + 1 }
          have hc := foldl_itemStep_colors true db.nextOrderId req.items
            { db with orders := db.orders ++ [mkOrderRow db.nextOrderId now true req],
                      nextOrderId := db.nextOrderId + 1 }
          simp only [if_true] at hp hc
          rw [h]
          constructor <;> (repeat' split) <;> simp_all
  case waRoute =>
    intro db now channel req oracle
    unfold createWhatsappOrder
    by_cases hempty : req.items.isEmpty
    · simp [hempty]
    · by_cases h0 : oracle 0
      · simp [hempty, h0]
      · simp only [hempty, h0, if_false, Bool.false_eq_true]
        rcases insertItemsLoop_cases oracle true db.nextOrderId req.items 1
          { db with orders := db.orders ++ [mkWhatsappOrderRow db.nextOrderId now req],
                    nextOrderId := db.nextOrderId + 1 } with h | ⟨k', h⟩
        · simp [h]
        · have hp := foldl_itemStep_products true db.nextOrderId req.items
            { db with orders := db.orders ++ [mkWhatsappOrderRow db.nextOrderId now req],
                      nextOrderId := db.nextOrderId + 1 }
          have hc := foldl_itemStep_colors true db.nextOrderId req.items
            { db with orders := db.orders ++ [mkWhatsappOrderRow db.nextOrderId now req],
                      nextOrderId := db.nextOrderId + 1 }
          simp only [if_true] at hp hc
          rw [h]
          constructor <;> (repeat' split) <;> simp_all
  case web =>
    intro db now channel req hsrc hname hphone haddr hitems
    have hempty : req.items.isEmpty = false := by
      cases hi : req.items with
      | nil => exact absurd hi hitems
      | cons a l => simp [hi]
    have hWA : (req.order_source == some "whatsapp") = false := by
      simp [hsrc]
    unfold createOrder
    simp only [hempty, hWA, hname, hphone, haddr, Bool.not_false, Bool.not_true,
      Bool.false_or, Bool.and_self, Bool.true_and, Bool.false_and, Bool.or_self,
      Bool.false_eq_true, if_false, noFail,
      insertItemsLoop_noFail false db.nextOrderId req.items 1]
    have hp := foldl_itemStep_products false db.nextOrderId req.items
      { db with orders := db.orders ++ [mkOrderRow db.nextOrderId now false req],
                nextOrderId := db.nextOrderId + 1 }
    have hc := foldl_itemStep_colors false db.nextOrderId req.items
      { db with orders := db.orders ++ [mkOrderRow db.nextOrderId now false req],
                nextOrderId := db.nextOrderId + 1 }
    simp only [Bool.false_eq_true, if_false] at hp hc
    simp [hp, hc]
  case prod =>
    intro pid q ps i p hi
    have hmap : (decProductStock pid q ps)[i]? =
        some (if p.id == pid && stockGE p.stock q then
          { p with stock := p.stock.map (fun s => s - (q : Int)) } else p) := by
      unfold decProductStock
      rw [List.getElem?_map, hi]
      rfl
    refine ⟨?_, ?_, ?_⟩
    · intro S hid hstock
      constructor
      · intro hle
        rw [hmap]
        simp [hid, hstock, stockGE, hle]
      · intro hlt
        rw [hmap]
        simp [hid, hstock, stockGE, not_le.mpr hlt]
    · intro hid
      rw [hmap]
      simp [hid]
    · intro hstock
      rw [hmap]
      simp [hstock, stockGE]
  case color =>
    intro cid pid q cs i c hi
    have hmap : (decColorStock cid pid q cs)[i]? =
        some (if c.id == cid && c.product_id == pid && stockGE c.stock q then
          { c with stock := c.stock.map (fun s => s - (q : Int)) } else c) := by
      unfold decColorStock
      rw [List.getElem?_map, hi]
      rfl
    refine ⟨?_, ?_⟩
    · intro S hid hprod hstock
      constructor
      · intro hle
        rw [hmap]
        simp [hid, hprod, hstock, stockGE, hle]
      · intro hlt
        rw [hmap]
        simp [hid, hprod, hstock, stockGE, not_le.mpr hlt]
    · intro hne
      rw [hmap]
      rcases not_and_or.mp hne with h | h <;> simp [h]

/-- A concrete datastore: one product with stock 5 owning one color with
stock 1. -/
def dbC1 : Db :=
  { orders := []
    orderItems := []
    products := [{ id := 1, stock := some 5 }]
    colors := [{ id := 7, product_id := 1, stock := some 1 }]
    nextOrderId := 1 }

/-- A concrete web order: quantity 3 against the product's stock and
quantity 1 against the color's stock. -/
def reqC1 : CreateOrderReq :=
  { name := some "Alice"
    phone := some "0600000000"
    address := some "Rabat"
    notes := none
    order_source := none
    items := [{ productId := 1, colorId := none, quantity := 3, price := some 10 },
              { productId := 1, colorId := some 7, quantity := 1, price := some 5 }] }

/-- Witness for C1: on the concrete web order the product stock drops from
5 to 2 and the color stock from 1 to 0, and the response is 201. -/
theorem stock_decrement_semantics_witness :
    (createOrder noFail true 0 reqC1 dbC1).1 = .created 1 ∧
    (createOrder noFail true 0 reqC1 dbC1).2.products = [{ id := 1, stock := some 2 }] ∧
    (createOrder noFail true 0 reqC1 dbC1).2.colors =
      [{ id := 7, product_id := 1, stock := some 0 }] := by
  have h := stock_decrement_semantics.2.2.1 dbC1 0 true reqC1
    (by decide) (by decide) (by decide) (by decide) (by decide)
  exact ⟨h.1, h.2.1.trans (by decide), h.2.2.trans (by decide)⟩

/-! ## Claims C2 and C10: download token lifecycle -/

/-- C2: for a registered token, a first retrieval within the time-to-live
succeeds and removes the token from the registry; any second retrieval of
the same token then fails with 401; a retrieval after the time-to-live has
elapsed fails with 401 even though the token was never used, and the
expired entry is removed on that detection. -/
theorem download_token_lifecycle
    (now later : Nat) (token : String) (reg : TokenRegistry) (fi : FileInfo)
    (fileOnDisk : String → Bool)
    (h : registryGet reg token = some fi) :
    (now ≤ fi.expiresAt →
      verifyDownloadToken now token reg = (some fi, registryDelete reg token) ∧
      (fileOnDisk fi.filename = true →
        downloadHandler now token reg fileOnDisk =
          (.streamed fi.filename, registryDelete reg token)) ∧
      (verifyDownloadToken later token (registryDelete reg token)).1 = none ∧
      (downloadHandler later token (registryDelete reg token) fileOnDisk).1 =
        .unauthorized) ∧
    (fi.expiresAt < now →
      verifyDownloadToken now token reg = (none, registryDelete reg token) ∧
      (downloadHandler now token reg fileOnDisk).1 = .unauthorized) := by
  have hnone : registryGet (registryDelete reg token) token = none :=
    registryGet_registryDelete reg token
  constructor
  · intro hle
    have hv : verifyDownloadToken now token reg =
        (some fi, registryDelete reg token) := by
      simp [verifyDownloadToken, h, not_lt.mpr hle]
    refine ⟨hv, ?_, ?_, ?_⟩
    · intro hf
      simp [downloadHandler, hv, hf]
    · simp [verifyDownloadToken, hnone]
    · simp [downloadHandler, verifyDownloadToken, hnone]
  · intro hgt
    have hv : verifyDownloadToken now token reg =
        (none, registryDelete reg token) := by
      simp [verifyDownloadToken, h, hgt]
    exact ⟨hv, by simp [downloadHandler, hv]⟩

/-- Witness for C2 at a concrete registry: a token expiring at instant 100
is retrieved successfully at instant 100, fails on the second try at 101,
and a never-used token expiring at 300 fails when first tried at 301. -/
theorem download_token_lifecycle_witness :
    verifyDownloadToken 100 "tok" [("tok", { filename := "f.pdf", expiresAt := 100 })] =
      (some { filename := "f.pdf", expiresAt := 100 }, []) ∧
    (verifyDownloadToken 101 "tok"
      (registryDelete [("tok", { filename := "f.pdf", expiresAt := 100 })] "tok")).1 =
      none ∧
    (verifyDownloadToken 301 "late"
      [("late", { filename := "g.pdf", expiresAt := 300 })]).1 = none := by
  have h1 := download_token_lifecycle 100 101 "tok"
    [("tok", { filename := "f.pdf", expiresAt := 100 })]
    { filename := "f.pdf", expiresAt := 100 } (fun _ => true) (by decide)
  have h2 := download_token_lifecycle 301 0 "late"
    [("late", { filename := "g.pdf", expiresAt := 300 })]
    { filename := "g.pdf", expiresAt := 300 } (fun _ => true) (by decide)
  refine ⟨((h1.1 (by decide)).1).trans (by decide), (h1.1 (by decide)).2.2.1, ?_⟩
  rw [(h2.2 (by decide)).1]

/-- C10: the token is consumed at verification time, before the temporary
file is checked: when the file is missing the request ends 404 with the
token already removed, a repeat of the same request ends 401, and whatever
happens to the stream (`fileOnDisk'` arbitrary) the registry after the
handler never holds the token again. -/
theorem download_consumes_token_first
    (now later : Nat) (token : String) (reg : TokenRegistry) (fi : FileInfo)
    (fileOnDisk : String → Bool)
    (h : registryGet reg token = some fi) (hlive : now ≤ fi.expiresAt)
    (hmissing : fileOnDisk fi.filename = false) :
    downloadHandler now token reg fileOnDisk =
      (.fileNotFound, registryDelete reg token) ∧
    (∀ fd2 : String → Bool,
      (downloadHandler later token (registryDelete reg token) fd2).1 =
        .unauthorized) ∧
    (∀ fd3 : String → Bool,
      registryGet (downloadHandler now token reg fd3).2 token = none) := by
  have hnone : registryGet (registryDelete reg token) token = none :=
    registryGet_registryDelete reg token
  have hv : verifyDownloadToken now token reg =
      (some fi, registryDelete reg token) := by
    simp [verifyDownloadToken, h, not_lt.mpr hlive]
  refine ⟨?_, ?_, ?_⟩
  · simp [downloadHandler, hv, hmissing]
  · intro fd2
    simp [downloadHandler, verifyDownloadToken, hnone]
  · intro fd3
    unfold downloadHandler
    rw [hv]
    split
    · rename_i reg' heq
      simp at heq
    · rename_i fileInfo reg' heq
      simp only [Prod.mk.injEq, Option.some.injEq] at heq
      obtain ⟨hfi, hreg⟩ := heq
      subst hreg
      split <;> simpa using hnone

/-- Witness for C10 at a concrete registry with the file absent from disk:
404 with the token consumed, then 401 on the retry. -/
theorem download_consumes_token_first_witness :
    downloadHandler 10 "tok" [("tok", { filename := "f.pdf", expiresAt := 100 })]
      (fun _ => false) =
      (.fileNotFound, registryDelete [("tok", { filename := "f.pdf", expiresAt := 100 })] "tok") ∧
    (downloadHandler 11 "tok"
      (registryDelete [("tok", { filename := "f.pdf", expiresAt := 100 })] "tok")
      (fun _ => false)).1 = .unauthorized := by
  have h := download_consumes_token_first 10 11 "tok"
    [("tok", { filename := "f.pdf", expiresAt := 100 })]
    { filename := "f.pdf", expiresAt := 100 } (fun _ => false)
    (by decide) (by decide) (by decide)
  exact ⟨h.1, h.2.1 (fun _ => false)⟩

/-! ## Claim C3: grand totals across the three exports -/

/-- An order whose single item costs 10. -/
def orderC3a : ExportOrder :=
  { id := 1, name := some "Alice", phone := some "0600", address := some "Rabat"
    order_date := 0, status := some "pending"
    items := [{ product_name := "Produit", quantity := 1, price := 10 }] }

/-- The same order except the item costs 20. -/
def orderC3b : ExportOrder :=
  { id := 1, name := some "Alice", phone := some "0600", address := some "Rabat"
    order_date := 0, status := some "pending"
    items := [{ product_name := "Produit", quantity := 1, price := 20 }] }

/-- Counterexample to C3: the spreadsheet export reports no grand total.
Its rendered row (the only per-order content it emits) contains no price
data at all, so two orders with different PDF/Word grand totals (10 versus
20) produce identical spreadsheet output; no quantity reported by the
spreadsheet export can equal the PDF total on both. -/
theorem excel_total_counterexample :
    excelRow toString orderC3a = excelRow toString orderC3b ∧
    pdfOrderTotal orderC3a.items ≠ pdfOrderTotal orderC3b.items ∧
    wordOrderTotal orderC3a.items ≠ wordOrderTotal orderC3b.items := by
  refine ⟨by decide, ?_, ?_⟩ <;>
    · simp only [pdfOrderTotal, wordOrderTotal, orderC3a, orderC3b,
        List.foldl_cons, List.foldl_nil]
      norm_num

/-- C3 amended: the PDF export and the Word export compute the same grand
total for the same items (both accumulate `price × quantity` over the
items in order); the spreadsheet export computes no total. -/
theorem pdf_word_total_agree :
    ∀ items : List ExportItem, pdfOrderTotal items = wordOrderTotal items :=
  fun _ => rfl

/-! ## Claim C4: status labels across the three renderers -/

/-- Counterexample to C4: on the unrecognized stored status `shipped` the
Excel and Word renderers fall back to `En attente`, but the PDF renderer's
`statusInfo[status]` lookup is undefined (`none` here), so
`statusInfo[status].text` throws and the PDF handler answers 500 instead
of rendering any label. -/
theorem pdf_status_crash_counterexample :
    excelStatusLabel (some "shipped") = "En attente" ∧
    wordStatusText (some "shipped") = "En attente" ∧
    pdfStatusText (some "shipped") = none := by
  refine ⟨by decide, by decide, by decide⟩

/-- C4 amended: the Excel and Word renderers agree on every stored status
and both fall back to `En attente` on unrecognized values; the PDF
renderer agrees with them on the four recognized statuses and falls back
to `pending`'s label only on a falsy (absent/empty) status, while on a
truthy unrecognized status its label lookup is undefined and the renderer
fails instead of producing a label. -/
theorem status_label_agreement :
    (∀ s : Option String, excelStatusLabel s = wordStatusText s) ∧
    (∀ s : Option String, jsTruthyS s = false →
      pdfStatusText s = some "En attente") ∧
    (∀ str : String, str ∈ ["pending", "confirmed", "delivered", "cancelled"] →
      pdfStatusText (some str) = some (excelStatusLabel (some str))) ∧
    (∀ str : String, str ≠ "" →
      str ∉ ["pending", "confirmed", "delivered", "cancelled"] →
      pdfStatusText (some str) = none) := by
  refine ⟨?agree, ?falsy, ?known, ?unknown⟩
  case agree =>
    intro s
    cases s with
    | none => rfl
    | some str =>
      by_cases h1 : str = "pending" <;> by_cases h2 : str = "confirmed" <;>
        by_cases h3 : str = "delivered" <;> by_cases h4 : str = "cancelled" <;>
        simp_all [excelStatusLabel, wordStatusText, statusMapLookup]
  case falsy =>
    intro s hs
    cases s with
    | none => rfl
    | some str =>
      simp only [jsTruthyS, bne_eq_false_iff_eq] at hs
      subst hs
      rfl
  case known =>
    intro str hmem
    simp only [List.mem_cons, List.not_mem_nil, or_false] at hmem
    rcases hmem with rfl | rfl | rfl | rfl <;> decide
  case unknown =>
    intro str hne hmem
    have h1 : str ≠ "pending" := fun h => hmem (by simp [h])
    have h2 : str ≠ "confirmed" := fun h => hmem (by simp [h])
    have h3 : str ≠ "delivered" := fun h => hmem (by simp [h])
    have h4 : str ≠ "cancelled" := fun h => hmem (by simp [h])
    simp [pdfStatusText, pdfStatusKey, jsTruthyS, statusInfoText, hne, h1, h2, h3, h4]

/-- Witness for the amended C4 at concrete statuses. -/
theorem status_label_agreement_witness :
    pdfStatusText (some "delivered") = some (excelStatusLabel (some "delivered")) ∧
    pdfStatusText none = some "En attente" :=
  ⟨status_label_agreement.2.2.1 "delivered" (by decide),
   status_label_agreement.2.1 none (by decide)⟩

/-! ## Claim C5: atomicity of order creation -/

/-- The datastore state after a committed run of `POST /api/orders`:
the new order row plus the fold of the per-item effects. -/
def committedDb (now : Nat) (req : CreateOrderReq) (db : Db) : Db :=
  req.items.foldl
    (fun d it => itemStep (req.order_source == some "whatsapp") db.nextOrderId it d)
    { db with
      orders := db.orders ++
        [mkOrderRow db.nextOrderId now (req.order_source == some "whatsapp") req]
      nextOrderId := db.nextOrderId + 1 }

lemma committedDb_orders (now : Nat) (req : CreateOrderReq) (db : Db) :
    (committedDb now req db).orders =
      db.orders ++
        [mkOrderRow db.nextOrderId now (req.order_source == some "whatsapp") req] := by
  simp [committedDb, foldl_itemStep_orders]

lemma committedDb_orderItems (now : Nat) (req : CreateOrderReq) (db : Db) :
    (committedDb now req db).orderItems =
      db.orderItems ++ req.items.map (mkItemRow db.nextOrderId) := by
  simp [committedDb, foldl_itemStep_orderItems]

lemma committedDb_nextOrderId (now : Nat) (req : CreateOrderReq) (db : Db) :
    (committedDb now req db).nextOrderId = db.nextOrderId + 1 := by
  simp [committedDb, foldl_itemStep_nextOrderId]

/-- Every run of the order-creation handler ends in one of: a validation
400 with the datastore untouched, a rolled-back 500 with the datastore
untouched, or the committed state (with either a post-commit 500 or the
201). -/
lemma createOrder_outcomes (oracle : FailOracle) (channel : Bool) (now : Nat)
    (req : CreateOrderReq) (db : Db) :
    createOrder oracle channel now req db = (.badRequest "Missing required items", db) ∨
    createOrder oracle channel now req db =
      (.badRequest "Missing required customer information", db) ∨
    createOrder oracle channel now req db = (.serverError, db) ∨
    ((createOrder oracle channel now req db).2 = committedDb now req db ∧
      ((createOrder oracle channel now req db).1 = .serverError ∨
       (createOrder oracle channel now req db).1 = .created db.nextOrderId)) := by
  by_cases hempty : req.items.isEmpty
  · left; simp [createOrder, hempty]
  · by_cases hval : (!(req.order_source == some "whatsapp") &&
        (!jsTruthyS req.name || !jsTruthyS req.phone || !jsTruthyS req.address)) = true
    · right; left
      simp [createOrder, hempty, hval]
    · by_cases h0 : oracle 0
      · right; right; left
        simp [createOrder, hempty, hval, h0]
      · rcases insertItemsLoop_cases oracle (req.order_source == some "whatsapp")
          db.nextOrderId req.items 1
          { db with
            orders := db.orders ++
              [mkOrderRow db.nextOrderId now (req.order_source == some "whatsapp") req]
            nextOrderId := db.nextOrderId + 1 } with h | ⟨k', h⟩
        · right; right; left
          simp [createOrder, hempty, hval, h0, h]
        · by_cases hk : oracle k'
          · right; right; left
            simp [createOrder, hempty, hval, h0, h, hk]
          · right; right; right
            have hc : (createOrder oracle channel now req db) =
                if oracle (k' + 1) then (.serverError, committedDb now req db)
                else if channel && oracle (k' + 2) then
                  (.serverError, committedDb now req db)
                else (.created db.nextOrderId, committedDb now req db) := by
              simp [createOrder, hempty, hval, h0, h, hk, committedDb]
            rw [hc]
            split
            · exact ⟨rfl, Or.inl rfl⟩
            · split
              · exact ⟨rfl, Or.inl rfl⟩
              · exact ⟨rfl, Or.inr rfl⟩

/-- C5: order creation is atomic.  A validation error (absent/empty items,
or missing customer info on a non-WhatsApp order) answers 400 with the
datastore untouched; every 400 leaves the datastore untouched; under any
failure oracle the final datastore is either exactly the initial one (full
rollback) or exactly the committed one (the full order row plus one item
row per input item) — no partial rows; and a 201 implies the committed
state. -/
theorem order_creation_atomic (oracle : FailOracle) (channel : Bool)
    (now : Nat) (req : CreateOrderReq) (db : Db) :
    (req.items = [] →
      createOrder oracle channel now req db =
        (.badRequest "Missing required items", db)) ∧
    (req.order_source ≠ some "whatsapp" → req.items ≠ [] →
      (jsTruthyS req.name = false ∨ jsTruthyS req.phone = false ∨
        jsTruthyS req.address = false) →
      createOrder oracle channel now req db =
        (.badRequest "Missing required customer information", db)) ∧
    (∀ m, (createOrder oracle channel now req db).1 = .badRequest m →
      (createOrder oracle channel now req db).2 = db) ∧
    ((createOrder oracle channel now req db).2 = db ∨
      ((createOrder oracle channel now req db).2.orders =
        db.orders ++
          [mkOrderRow db.nextOrderId now (req.order_source == some "whatsapp") req] ∧
       (createOrder oracle channel now req db).2.orderItems =
        db.orderItems ++ req.items.map (mkItemRow db.nextOrderId))) ∧
    ((createOrder oracle channel now req db).1 = .created db.nextOrderId →
      ((createOrder oracle channel now req db).2.orders =
        db.orders ++
          [mkOrderRow db.nextOrderId now (req.order_source == some "whatsapp") req] ∧
       (createOrder oracle channel now req db).2.orderItems =
        db.orderItems ++ req.items.map (mkItemRow db.nextOrderId))) := by
  refine ⟨?items, ?vali, ?bad, ?allOrNothing, ?createdFull⟩
  case items =>
    intro h
    simp [createOrder, h]
  case vali =>
    intro hsrc hitems hmiss
    have hempty : req.items.isEmpty = false := by
      cases hi : req.items with
      | nil => exact absurd hi hitems
      | cons a l => simp [hi]
    have hWA : (req.order_source == some "whatsapp") = false :=
      beq_eq_false_iff_ne.mpr hsrc
    have hval : (!(req.order_source == some "whatsapp") &&
        (!jsTruthyS req.name || !jsTruthyS req.phone || !jsTruthyS req.address)) = true := by
      rcases hmiss with h | h | h <;> simp [hWA, h]
    simp [createOrder, hempty, hval]
  case bad =>
    intro m hm
    rcases createOrder_outcomes oracle channel now req db with h | h | h | ⟨h2, h1⟩
    · rw [h]
    · rw [h]
    · rw [h]
    · rcases h1 with h1 | h1 <;> rw [h1] at hm <;> exact absurd hm (by simp)
  case allOrNothing =>
    rcases createOrder_outcomes oracle channel now req db with h | h | h | ⟨h2, h1⟩
    · left; rw [h]
    · left; rw [h]
    · left; rw [h]
    · right
      rw [h2, committedDb_orders, committedDb_orderItems]
      exact ⟨rfl, rfl⟩
  case createdFull =>
    intro hcr
    rcases createOrder_outcomes oracle channel now req db with h | h | h | ⟨h2, h1⟩
    · rw [h] at hcr; exact absurd hcr (by simp)
    · rw [h] at hcr; exact absurd hcr (by simp)
    · rw [h] at hcr; exact absurd hcr (by simp)
    · rw [h2, committedDb_orders, committedDb_orderItems]
      exact ⟨rfl, rfl⟩

/-- An order request with no items. -/
def reqEmpty : CreateOrderReq :=
  { name := none, phone := none, address := none, notes := none
    order_source := none, items := [] }

/-- Witness for C5: the empty-items request answers 400 and leaves the
concrete datastore untouched even under the everything-fails oracle; a
failure at the first item INSERT rolls the concrete web order back
entirely. -/
theorem order_creation_atomic_witness :
    createOrder (fun _ => true) false 0 reqEmpty dbC1 =
      (.badRequest "Missing required items", dbC1) ∧
    createOrder (fun i => i == 1) false 0 reqC1 dbC1 = (.serverError, dbC1) := by
  refine ⟨(order_creation_atomic (fun _ => true) false 0 reqEmpty dbC1).1 rfl,
    by decide⟩

/-! ## Claim C6: completion timestamp is set exactly once -/

lemma find?_map_update (l : List OrderRow) (oid : Nat) (status : String)
    (cd : Option Nat) :
    (l.map fun r =>
        if r.id == oid then { r with status := status, completed_date := cd }
        else r).find? (fun r => r.id == oid) =
      (l.find? (fun r => r.id == oid)).map
        (fun r => { r with status := status, completed_date := cd }) := by
  induction l with
  | nil => rfl
  | cons r rest ih =>
    cases hb : (r.id == oid) with
    | true => simp [List.find?, hb]
    | false =>
      simp only [List.map_cons, hb, Bool.false_eq_true, if_false, List.find?]
      exact ih

/-- C6: for a status update on an existing order with a valid status, the
update answers OK and rewrites the order's row so that: the new status is
stored; if the status is `delivered` and `completed_date` was null it
becomes the current instant; if `completed_date` was already set it is
kept verbatim (also when re-setting `delivered`); and a non-`delivered`
status never changes `completed_date`. -/
theorem completed_date_set_once (db : Db) (oid now : Nat) (status : String)
    (o : OrderRow)
    (hvalid : status = "pending" ∨ status = "confirmed" ∨
      status = "delivered" ∨ status = "cancelled")
    (hfind : db.orders.find? (fun r => r.id == oid) = some o) :
    (updateOrderStatus now oid status db).1 = .ok ∧
    ∃ o', ((updateOrderStatus now oid status db).2).orders.find?
        (fun r => r.id == oid) = some o' ∧
      o'.status = status ∧
      (status = "delivered" → o.completed_date = none →
        o'.completed_date = some now) ∧
      (∀ t, o.completed_date = some t → o'.completed_date = some t) ∧
      (status ≠ "delivered" → o'.completed_date = o.completed_date) := by
  have hvb : (status == "pending" || status == "confirmed" ||
      status == "delivered" || status == "cancelled") = true := by
    rcases hvalid with rfl | rfl | rfl | rfl <;> decide
  have hstep : updateOrderStatus now oid status db =
      (.ok, { db with orders := db.orders.map fun r =>
        if r.id == oid then
          { r with
            status := status
            completed_date :=
              if status == "delivered" && o.completed_date.isNone then some now
              else o.completed_date }
        else r }) := by
    unfold updateOrderStatus
    rw [hvb, hfind]
    rfl
  rw [hstep]
  refine ⟨rfl, ?_⟩
  refine ⟨{ o with
      status := status
      completed_date :=
        if status == "delivered" && o.completed_date.isNone then some now
        else o.completed_date },
    ?_, rfl, ?_, ?_, ?_⟩
  · exact (find?_map_update db.orders oid status _).trans (by rw [hfind]; rfl)
  · intro hdel hnone
    simp [hdel, hnone]
  · intro t ht
    simp [ht]
  · intro hnd
    have hb : (status == "delivered") = false := beq_eq_false_iff_ne.mpr hnd
    simp [hb]

/-- A concrete datastore with one delivered-pending order. -/
def dbC6 : Db :=
  { orders := [{ id := 4, name := "Lina", phone := "0612", address := "Salé",
                 notes := none, status := "pending", order_source := "website",
                 order_date := 50, completed_date := none }]
    orderItems := []
    products := []
    colors := []
    nextOrderId := 5 }

/-- Witness for C6: delivering order 4 at instant 99 stamps
`completed_date = 99`; a second update to `delivered` at instant 120 of
the already-stamped row keeps 99; cancelling a fresh copy leaves
`completed_date` null. -/
theorem completed_date_set_once_witness :
    ∃ o', ((updateOrderStatus 99 4 "delivered" dbC6).2).orders.find?
        (fun r => r.id == 4) = some o' ∧ o'.completed_date = some 99 := by
  have h := completed_date_set_once dbC6 4 99 "delivered"
    { id := 4, name := "Lina", phone := "0612", address := "Salé",
      notes := none, status := "pending", order_source := "website",
      order_date := 50, completed_date := none }
    (Or.inr (Or.inr (Or.inl rfl))) (by decide)
  obtain ⟨-, o', hfind, -, hset, -, -⟩ := h
  exact ⟨o', hfind, hset rfl rfl⟩

/-! ## Claim C7: inserted order fields and item counts -/

/-- A WhatsApp-cart request that does supply customer data. -/
def reqC7 : WhatsappOrderReq :=
  { name := some "Alice"
    phone := some "0611111111"
    address := some "Casablanca"
    notes := some "ring twice"
    items := [{ productId := 1, colorId := none, quantity := 1, price := some 10 }] }

/-- Counterexample to C7: through `POST /api/orders/whatsapp` the supplied
customer data wins over the placeholders (`req.body.name || 'WhatsApp
Order'`), so the inserted row carries `Alice`, not the placeholder. -/
theorem whatsapp_route_keeps_supplied_name :
    ((createWhatsappOrder noFail true 0 reqC7 dbC1).2.orders.map
      (fun o => o.name)) = ["Alice"] ∧
    ((createWhatsappOrder noFail true 0 reqC7 dbC1).2.orders.map
      (fun o => o.notes)) = [some "ring twice"] ∧
    "Alice" ≠ "WhatsApp Order" := by
  refine ⟨by decide, by decide, by decide⟩

/-- C7 amended: through the main route with `order_source = 'whatsapp'`
the inserted row carries the fixed placeholders regardless of the supplied
customer data and source `whatsapp`, with one item row per input item;
through the dedicated WhatsApp route the supplied customer fields are used
verbatim and the placeholders are only fallbacks for absent/empty fields,
again with source `whatsapp` and one item row per input item; a valid web
order gets source `website`, its supplied customer fields, and one item
row per input item. -/
theorem order_insert_characterization :
    (∀ (db : Db) (now : Nat) (channel : Bool) (req : CreateOrderReq),
      req.order_source = some "whatsapp" → req.items ≠ [] →
        (createOrder noFail channel now req db).2.orders = db.orders ++
          [{ id := db.nextOrderId, name := "WhatsApp Order",
             phone := "WhatsApp", address := "To be provided via WhatsApp",
             notes := some "Customer will provide details via WhatsApp",
             status := "pending", order_source := "whatsapp",
             order_date := now, completed_date := none }] ∧
        (createOrder noFail channel now req db).2.orderItems =
          db.orderItems ++ req.items.map (mkItemRow db.nextOrderId)) ∧
    (∀ (db : Db) (now : Nat) (channel : Bool) (req : WhatsappOrderReq),
      req.items ≠ [] →
        (createWhatsappOrder noFail channel now req db).2.orders = db.orders ++
          [{ id := db.nextOrderId,
             name := if jsTruthyS req.name then req.name.getD "" else "WhatsApp Order",
             phone := if jsTruthyS req.phone then req.phone.getD "" else "WhatsApp",
             address := if jsTruthyS req.address then req.address.getD ""
               else "To be provided via WhatsApp",
             notes := some (if jsTruthyS req.notes then req.notes.getD ""
               else "Customer will provide details via WhatsApp"),
             status := "pending", order_source := "whatsapp",
             order_date := now, completed_date := none }] ∧
        (createWhatsappOrder noFail channel now req db).2.orderItems =
          db.orderItems ++ req.items.map (mkItemRow db.nextOrderId)) ∧
    (∀ (db : Db) (now : Nat) (channel : Bool) (req : CreateOrderReq),
      req.order_source ≠ some "whatsapp" → jsTruthyS req.name = true →
      jsTruthyS req.phone = true → jsTruthyS req.address = true →
      req.items ≠ [] →
        (createOrder noFail channel now req db).2.orders = db.orders ++
          [{ id := db.nextOrderId, name := req.name.getD "",
             phone := req.phone.getD "", address := req.address.getD "",
             notes := if jsTruthyS req.notes then req.notes else none,
             status := "pending", order_source := "website",
             order_date := now, completed_date := none }] ∧
        (createOrder noFail channel now req db).2.orderItems =
          db.orderItems ++ req.items.map (mkItemRow db.nextOrderId)) := by
  refine ⟨?waMain, ?waRoute, ?web⟩
  case waMain =>
    intro db now channel req hsrc hitems
    have hempty : req.items.isEmpty = false := by
      cases hi : req.items with
      | nil => exact absurd hi hitems
      | cons a l => simp [hi]
    have hWA : (req.order_source == some "whatsapp") = true := by simp [hsrc]
    unfold createOrder
    simp only [hempty, hWA, Bool.not_true, Bool.false_and, Bool.false_eq_true,
      if_false, noFail, insertItemsLoop_noFail true db.nextOrderId req.items 1]
    simp [foldl_itemStep_orders, foldl_itemStep_orderItems, mkOrderRow]
  case waRoute =>
    intro db now channel req hitems
    have hempty : req.items.isEmpty = false := by
      cases hi : req.items with
      | nil => exact absurd hi hitems
      | cons a l => simp [hi]
    unfold createWhatsappOrder
    simp only [hempty, noFail, Bool.false_eq_true, if_false,
      insertItemsLoop_noFail true db.nextOrderId req.items 1]
    simp [foldl_itemStep_orders, foldl_itemStep_orderItems,
      mkWhatsappOrderRow, jsOr]
  case web =>
    intro db now channel req hsrc hname hphone haddr hitems
    have hempty : req.items.isEmpty = false := by
      cases hi : req.items with
      | nil => exact absurd hi hitems
      | cons a l => simp [hi]
    have hWA : (req.order_source == some "whatsapp") = false :=
      beq_eq_false_iff_ne.mpr hsrc
    unfold createOrder
    simp only [hempty, hWA, hname, hphone, haddr, Bool.not_false, Bool.not_true,
      Bool.false_or, Bool.or_self, Bool.true_and, Bool.false_eq_true, if_false,
      noFail, insertItemsLoop_noFail false db.nextOrderId req.items 1]
    simp [foldl_itemStep_orders, foldl_itemStep_orderItems, mkOrderRow]

/-- Witness for the amended C7: the main route with
`order_source = 'whatsapp'` and supplied customer data still inserts the
placeholders, and the web order from the C1 scenario inserts its two item
rows and the `website` source. -/
theorem order_insert_characterization_witness :
    ((createOrder noFail true 0
        { reqC1 with order_source := some "whatsapp" } dbC1).2.orders.map
      (fun o => o.name)) = ["WhatsApp Order"] ∧
    ((createOrder noFail true 0 reqC1 dbC1).2.orders.map
      (fun o => o.order_source)) = ["website"] ∧
    (createOrder noFail true 0 reqC1 dbC1).2.orderItems.length = 2 := by
  have h1 := (order_insert_characterization.1 dbC1 0 true
    { reqC1 with order_source := some "whatsapp" } (by decide) (by decide)).1
  have h2 := order_insert_characterization.2.2 dbC1 0 true reqC1
    (by decide) (by decide) (by decide) (by decide) (by decide)
  refine ⟨by rw [h1]; decide, by rw [h2.1]; decide, by rw [h2.2]; decide⟩

/-! ## Claim C8: a notification failure changes the response (code bug) -/

/-- A valid one-item web order. -/
def reqC8 : CreateOrderReq :=
  { name := some "Amine"
    phone := some "0622222222"
    address := some "Fès"
    notes := none
    order_source := none
    items := [{ productId := 1, colorId := none, quantity := 1, price := some 10 }] }

/-- C8 evaluated at the failing input: after the transaction commits
(statements 0-3) and the re-read succeeds (statement 4), a throw inside
the `notifyAdmins` broadcast (statement 5) reaches the handler's catch, so
the caller gets the 500 error response instead of the 201 with the order
id — even though the order row is committed.  The same run with no
notification failure answers 201. -/
theorem notify_failure_changes_response :
    (createOrder (fun i => i == 5) true 0 reqC8 dbC1).1 = .serverError ∧
    (createOrder (fun i => i == 5) true 0 reqC8 dbC1).1 ≠ .created 1 ∧
    (createOrder (fun i => i == 5) true 0 reqC8 dbC1).2.orders ≠ dbC1.orders ∧
    (createOrder noFail true 0 reqC8 dbC1).1 = .created 1 := by
  refine ⟨by decide, by decide, by decide, by decide⟩

/-! ## Claim C9: export filter semantics -/

lemma matchesFilter_eq_true_iff (f : ExportFilter) (o : OrderRow) :
    matchesFilter f o = true ↔
      (jsTruthyN f.orderId = true → o.id = f.orderId.getD 0) ∧
      (jsTruthyS f.status = true → f.status.getD "" ≠ "all" →
        o.status = f.status.getD "") ∧
      (∀ d, f.startDate = some d → dayStart d ≤ o.order_date) ∧
      (∀ d, f.endDate = some d → o.order_date ≤ dayEnd d) := by
  unfold matchesFilter
  simp only [Bool.and_eq_true]
  constructor
  · rintro ⟨⟨⟨h1, h2⟩, h3⟩, h4⟩
    refine ⟨?_, ?_, ?_, ?_⟩
    · intro ht
      rw [if_pos ht] at h1
      exact eq_of_beq h1
    · intro ht hall
      rw [if_pos ⟨ht, bne_iff_ne.mpr hall⟩] at h2
      exact eq_of_beq h2
    · intro d hd
      have hs : f.startDate.isSome = true := by simp [hd]
      rw [if_pos hs] at h3
      have := of_decide_eq_true h3
      simpa [hd] using this
    · intro d hd
      have hs : f.endDate.isSome = true := by simp [hd]
      rw [if_pos hs] at h4
      have := of_decide_eq_true h4
      simpa [hd] using this
  · rintro ⟨h1, h2, h3, h4⟩
    refine ⟨⟨⟨?_, ?_⟩, ?_⟩, ?_⟩
    · by_cases ht : jsTruthyN f.orderId = true
      · rw [if_pos ht, h1 ht]
        exact beq_self_eq_true _
      · rw [if_neg ht]
    · by_cases hcond : jsTruthyS f.status = true ∧ (f.status.getD "" != "all") = true
      · obtain ⟨ht, hall⟩ := hcond
        rw [if_pos (⟨ht, hall⟩ :
            jsTruthyS f.status = true ∧ (f.status.getD "" != "all") = true),
          h2 ht (bne_iff_ne.mp hall)]
        exact beq_self_eq_true _
      · rw [if_neg hcond]
    · by_cases hs : f.startDate.isSome = true
      · obtain ⟨d, hd⟩ := Option.isSome_iff_exists.mp hs
        rw [if_pos hs]
        exact decide_eq_true (by simpa [hd] using h3 d hd)
      · rw [if_neg hs]
    · by_cases hs : f.endDate.isSome = true
      · obtain ⟨d, hd⟩ := Option.isSome_iff_exists.mp hs
        rw [if_pos hs]
        exact decide_eq_true (by simpa [hd] using h4 d hd)
      · rw [if_neg hs]

/-- C9: an order row is in the export result iff it is in the table and
satisfies every provided filter — exact id match when a truthy `orderId`
is given, exact status match when a truthy status other than `all` is
given, creation timestamp at or after the start day's `00:00:00` and at or
before the end day's `23:59:59` when those are given — and the result is
ordered newest-first by order date. -/
theorem export_filter_semantics (f : ExportFilter) (orders : List OrderRow) :
    (∀ o : OrderRow, o ∈ exportQuery f orders ↔ o ∈ orders ∧
      (jsTruthyN f.orderId = true → o.id = f.orderId.getD 0) ∧
      (jsTruthyS f.status = true → f.status.getD "" ≠ "all" →
        o.status = f.status.getD "") ∧
      (∀ d, f.startDate = some d → dayStart d ≤ o.order_date) ∧
      (∀ d, f.endDate = some d → o.order_date ≤ dayEnd d)) ∧
    List.Sorted newestFirst (exportQuery f orders) := by
  constructor
  · intro o
    rw [exportQuery,
      (List.perm_insertionSort newestFirst (orders.filter (matchesFilter f))).mem_iff,
      List.mem_filter, matchesFilter_eq_true_iff]
  · exact List.sorted_insertionSort newestFirst _

/-- Two concrete order rows differing in status and date. -/
def rowA : OrderRow :=
  { id := 1, name := "A", phone := "1", address := "X", notes := none
    status := "confirmed", order_source := "website", order_date := 200000
    completed_date := none }

/-- The second concrete order row. -/
def rowB : OrderRow :=
  { id := 2, name := "B", phone := "2", address := "Y", notes := none
    status := "pending", order_source := "website", order_date := 100000
    completed_date := none }

/-- The concrete filter `status = confirmed`, no other criteria. -/
def fC9 : ExportFilter :=
  { orderId := none, status := some "confirmed", startDate := none, endDate := none }

/-- Witness for C9: with `status = confirmed` the confirmed row is kept
and the pending row is excluded. -/
theorem export_filter_semantics_witness :
    rowA ∈ exportQuery fC9 [rowA, rowB] ∧ rowB ∉ exportQuery fC9 [rowA, rowB] := by
  have h := (export_filter_semantics fC9 [rowA, rowB]).1
  constructor
  · refine (h rowA).mpr ⟨by simp, ?_, ?_, ?_, ?_⟩
    · intro ht; exact absurd ht (by decide)
    · intro _ _; decide
    · intro d hd; exact absurd hd (by simp [fC9])
    · intro d hd; exact absurd hd (by simp [fC9])
  · intro hmem
    have hstat := ((h rowB).mp hmem).2.2.1 (by decide) (by decide)
    exact absurd hstat (by decide)

end Swibi
